import Mathlib

/-!
Shallow embedding of the dragino-basicfwd gateway core, covering the relay
binary codec (src/relay/lora_relay_protocol.c), the SX126x LoRaHub HAL
(src/onehub/libhub/lorahub_hal.c and src/liblora/onehub/lorahub/lorahub_hal_rx.c)
and the reception-batch data model (src/inc/gwcfg.h).

Machine integers are modeled as Nat (unsigned) and Int (signed), with explicit
truncation (mod 2 to the width) exactly where the C code converts or wraps.
Byte buffers are lists of Nat; a function that returns NULL or false in C
returns Option.none here.
-/

/- ================= small machine-integer helpers ================= -/

/-- Value of a byte read through a C cast to int8_t (two's complement). -/
def toInt8 (b : Nat) : Int :=
  if b % 256 < 128 then ((b % 256 : Nat) : Int) else ((b % 256 : Nat) : Int) - 256

/-- C cast of a signed value to uint8_t: the representing byte (mod 256). -/
def int8ToByte (x : Int) : Nat := (x % 256).toNat

/-- C conversion of a wider signed integer to int8_t (wraps, gcc semantics). -/
def int8Wrap (x : Int) : Int := (x + 128) % 256 - 128

/-- uint32_t subtraction `a - b` (wraps modulo 2^32). -/
def u32Sub (a b : Nat) : Nat := (a % 2 ^ 32 + (2 ^ 32 - b % 2 ^ 32)) % 2 ^ 32

/-- Value of a 32-bit word read through a C cast to int32_t (two's complement). -/
def toInt32 (n : Nat) : Int :=
  if n % 2 ^ 32 < 2 ^ 31 then ((n % 2 ^ 32 : Nat) : Int)
  else ((n % 2 ^ 32 : Nat) : Int) - 2 ^ 32

/- ================= relay protocol: lora_relay_protocol.h ================= -/

/-- MAX_PHY_PAYLOAD_LEN from lora_relay_protocol.h. -/
def MAX_PHY_PAYLOAD_LEN : Nat := 245

/-- MAX_EVENT_PAYLOAD_LEN from lora_relay_protocol.h. -/
def MAX_EVENT_PAYLOAD_LEN : Nat := 240

/-- LORAWAN_TYPE = 0x07 (meta_type, bits 7..5 of the MHDR). -/
def LORAWAN_TYPE : Nat := 0x07

/-- UPLINK_TYPE = 0x00 (payload_type, bits 4..3 of the MHDR). -/
def UPLINK_TYPE : Nat := 0x00

/-- DOWNLINK_TYPE = 0x01. -/
def DOWNLINK_TYPE : Nat := 0x01

/-- EVENT_TYPE = 0x03. -/
def EVENT_TYPE : Nat := 0x03

/-- struct uplink_packet.  The C `phy_payload[245]` array together with
`payload_len` is represented by a byte list plus the length field; the enum
fields are the integer values they hold. -/
structure uplink_packet where
  meta_type : Nat
  payload_type : Nat
  hop_count : Nat
  uplink_id : Nat
  data_rate : Nat
  rssi : Int
  snr : Int
  channel : Nat
  phy_payload : List Nat
  payload_len : Nat
deriving DecidableEq, Repr

/-- struct downlink_packet. -/
structure downlink_packet where
  meta_type : Nat
  payload_type : Nat
  hop_count : Nat
  dwlink_id : Nat
  data_rate : Nat
  frequency : Nat
  tx_power : Nat
  delay : Nat
  count_us : Nat
  phy_payload : List Nat
  payload_len : Nat
deriving DecidableEq, Repr

/-- struct event_packet. -/
structure event_packet where
  meta_type : Nat
  payload_type : Nat
  hop_count : Nat
  event_id : Nat
  event_type : Nat
  event_payload : List Nat
  payload_len : Nat
deriving DecidableEq, Repr

/- ================= relay protocol: lora_relay_protocol.c ================= -/

/-- Byte swap of a 32-bit word, as written in be_to_host32's little-endian
branch. -/
def bswap32 (value : Nat) : Nat :=
  ((value &&& 0x000000FF) <<< 24) |||
  ((value &&& 0x0000FF00) <<< 8) |||
  ((value &&& 0x00FF0000) >>> 8) |||
  ((value &&& 0xFF000000) >>> 24)

/-- be_to_host32: identity on a big-endian host, byte swap on a little-endian
one.  The host's endianness (`is_big_endian()`) is a parameter. -/
def be_to_host32 (big_endian : Bool) (value : Nat) : Nat :=
  if big_endian then value else bswap32 value

/-- host_to_be32 (same function as be_to_host32 in the source). -/
def host_to_be32 (big_endian : Bool) (value : Nat) : Nat :=
  be_to_host32 big_endian value

/-- build_mhdr: meta_type in bits 7..5, payload_type in bits 4..3, hop_count
in bits 2..0, each masked first. -/
def build_mhdr (meta_type payload_type hop_count : Nat) : Nat :=
  (((meta_type &&& 0x07) <<< 5) ||| ((payload_type &&& 0x03) <<< 3)) ||| (hop_count &&& 0x07)

/-- pack_uplink_packet.  Returns the buffer and *out_len, or none where the C
function returns NULL. -/
def pack_uplink_packet (packet : uplink_packet) : Option (List Nat × Nat) :=
  if packet.payload_len > MAX_PHY_PAYLOAD_LEN then none
  else if packet.payload_type ≠ UPLINK_TYPE then none
  else if packet.meta_type ≠ LORAWAN_TYPE then none
  else
    some ([build_mhdr packet.meta_type packet.payload_type packet.hop_count,
           (packet.uplink_id >>> 4) &&& 0xFF,
           ((packet.uplink_id &&& 0x0F) <<< 4) ||| (packet.data_rate &&& 0x0F),
           int8ToByte packet.rssi,
           int8ToByte packet.snr,
           packet.channel] ++ packet.phy_payload.take packet.payload_len,
          1 + 5 + packet.payload_len)

/-- unpack_uplink_packet.  The C length argument is the list length; the
match on six leading bytes is the `len < 6` check. -/
def unpack_uplink_packet (data : List Nat) : Option uplink_packet :=
  match data with
  | b0 :: b1 :: b2 :: b3 :: b4 :: b5 :: rest =>
    let meta_type := (b0 >>> 5) &&& 0x07
    let payload_type := (b0 >>> 3) &&& 0x03
    let hop_count := b0 &&& 0x07
    if payload_type ≠ UPLINK_TYPE then none
    else if meta_type ≠ LORAWAN_TYPE then none
    else
      let uplink_id := (b1 <<< 4) ||| ((b2 >>> 4) &&& 0x0F)
      let data_rate := b2 &&& 0x0F
      let rssi := toInt8 b3
      let snr := toInt8 b4
      if snr < -32 ∨ snr > 31 then none
      else
        let payload_len := rest.length
        if payload_len > MAX_PHY_PAYLOAD_LEN then none
        else some { meta_type := meta_type, payload_type := payload_type,
                    hop_count := hop_count, uplink_id := uplink_id,
                    data_rate := data_rate, rssi := rssi, snr := snr,
                    channel := b5, phy_payload := rest,
                    payload_len := payload_len }
  | _ => none

/-- pack_downlink_packet (endianness of the host is a parameter, see
host_to_be32). -/
def pack_downlink_packet (big_endian : Bool) (packet : downlink_packet) :
    Option (List Nat × Nat) :=
  if packet.payload_len > MAX_PHY_PAYLOAD_LEN then none
  else if packet.payload_type ≠ DOWNLINK_TYPE then none
  else if packet.meta_type ≠ LORAWAN_TYPE then none
  else
    let freq_be := host_to_be32 big_endian packet.frequency
    let count_us_be := host_to_be32 big_endian packet.count_us
    some ([build_mhdr packet.meta_type packet.payload_type packet.hop_count,
           (packet.dwlink_id >>> 4) &&& 0xFF,
           ((packet.dwlink_id &&& 0x0F) <<< 4) ||| (packet.data_rate &&& 0x0F),
           (freq_be >>> 24) &&& 0xFF,
           (freq_be >>> 16) &&& 0xFF,
           (freq_be >>> 8) &&& 0xFF,
           freq_be &&& 0xFF,
           ((packet.tx_power &&& 0x0F) <<< 4) ||| (packet.delay &&& 0x0F),
           (count_us_be >>> 24) &&& 0xFF,
           (count_us_be >>> 16) &&& 0xFF,
           (count_us_be >>> 8) &&& 0xFF,
           count_us_be &&& 0xFF] ++ packet.phy_payload.take packet.payload_len,
          1 + 7 + 4 + packet.payload_len)

/-- unpack_downlink_packet. -/
def unpack_downlink_packet (big_endian : Bool) (data : List Nat) :
    Option downlink_packet :=
  match data with
  | b0 :: b1 :: b2 :: b3 :: b4 :: b5 :: b6 :: b7 :: b8 :: b9 :: b10 :: b11 :: rest =>
    let meta_type := (b0 >>> 5) &&& 0x07
    let payload_type := (b0 >>> 3) &&& 0x03
    let hop_count := b0 &&& 0x07
    if payload_type ≠ DOWNLINK_TYPE then none
    else if meta_type ≠ LORAWAN_TYPE then none
    else
      let dwlink_id := (b1 <<< 4) ||| ((b2 >>> 4) &&& 0x0F)
      let data_rate := b2 &&& 0x0F
      let freq_be := (((b3 <<< 24) ||| (b4 <<< 16)) ||| (b5 <<< 8)) ||| b6
      let frequency := be_to_host32 big_endian freq_be
      let tx_power := (b7 >>> 4) &&& 0x0F
      let delay := b7 &&& 0x0F
      let count_us_be := (((b8 <<< 24) ||| (b9 <<< 16)) ||| (b10 <<< 8)) ||| b11
      let count_us := be_to_host32 big_endian count_us_be
      let payload_len := rest.length
      if payload_len > MAX_PHY_PAYLOAD_LEN then none
      else some { meta_type := meta_type, payload_type := payload_type,
                  hop_count := hop_count, dwlink_id := dwlink_id,
                  data_rate := data_rate, frequency := frequency,
                  tx_power := tx_power, delay := delay, count_us := count_us,
                  phy_payload := rest, payload_len := payload_len }
  | _ => none

/-- pack_event_packet.  The `(uint8_t)packet->event_type` cast is the mod 256. -/
def pack_event_packet (packet : event_packet) : Option (List Nat × Nat) :=
  if packet.payload_len > MAX_EVENT_PAYLOAD_LEN then none
  else if packet.payload_type ≠ EVENT_TYPE then none
  else if packet.meta_type ≠ LORAWAN_TYPE then none
  else
    some ([build_mhdr packet.meta_type packet.payload_type packet.hop_count,
           (packet.event_id >>> 8) &&& 0xFF,
           packet.event_id &&& 0xFF,
           packet.event_type % 256] ++ packet.event_payload.take packet.payload_len,
          1 + 3 + packet.payload_len)

/-- unpack_event_packet. -/
def unpack_event_packet (data : List Nat) : Option event_packet :=
  match data with
  | b0 :: b1 :: b2 :: b3 :: rest =>
    let meta_type := (b0 >>> 5) &&& 0x07
    let payload_type := (b0 >>> 3) &&& 0x03
    let hop_count := b0 &&& 0x07
    if payload_type ≠ EVENT_TYPE then none
    else if meta_type ≠ LORAWAN_TYPE then none
    else
      let event_id := (b1 <<< 8) ||| b2
      let payload_len := rest.length
      if payload_len > MAX_EVENT_PAYLOAD_LEN then none
      else some { meta_type := meta_type, payload_type := payload_type,
                  hop_count := hop_count, event_id := event_id,
                  event_type := b3, event_payload := rest,
                  payload_len := payload_len }
  | _ => none

/- ================= relay packet validity ================= -/

/-- A valid uplink packet: correct discriminators, 3-bit hop count, 12-bit id,
4-bit data rate, int8 rssi, SNR in -32..31, uint8 channel, payload within the
cap and consistent with its length field. -/
@[reducible] def wf_uplink (p : uplink_packet) : Prop :=
  p.meta_type = LORAWAN_TYPE ∧ p.payload_type = UPLINK_TYPE ∧ p.hop_count < 8 ∧
  p.uplink_id < 4096 ∧ p.data_rate < 16 ∧ -128 ≤ p.rssi ∧ p.rssi ≤ 127 ∧
  -32 ≤ p.snr ∧ p.snr ≤ 31 ∧ p.channel < 256 ∧
  p.payload_len ≤ MAX_PHY_PAYLOAD_LEN ∧ p.payload_len = p.phy_payload.length

/-- A valid downlink packet; beyond the uplink-style constraints it needs the
4-bit tx_power and delay fields in range and 32-bit frequency and count_us. -/
@[reducible] def wf_downlink (p : downlink_packet) : Prop :=
  p.meta_type = LORAWAN_TYPE ∧ p.payload_type = DOWNLINK_TYPE ∧ p.hop_count < 8 ∧
  p.dwlink_id < 4096 ∧ p.data_rate < 16 ∧ p.frequency < 2 ^ 32 ∧
  p.tx_power < 16 ∧ p.delay < 16 ∧ p.count_us < 2 ^ 32 ∧
  p.payload_len ≤ MAX_PHY_PAYLOAD_LEN ∧ p.payload_len = p.phy_payload.length

/-- A valid event packet: correct discriminators, 3-bit hop count, 16-bit
event id, 8-bit event type, payload within the event cap. -/
@[reducible] def wf_event (p : event_packet) : Prop :=
  p.meta_type = LORAWAN_TYPE ∧ p.payload_type = EVENT_TYPE ∧ p.hop_count < 8 ∧
  p.event_id < 65536 ∧ p.event_type < 256 ∧
  p.payload_len ≤ MAX_EVENT_PAYLOAD_LEN ∧ p.payload_len = p.event_payload.length

def uplink_witness_packet : uplink_packet :=
  { meta_type := 7, payload_type := 0, hop_count := 1, uplink_id := 0x123,
    data_rate := 7, rssi := -50, snr := 5, channel := 2,
    phy_payload := [1, 2, 3], payload_len := 3 }

def downlink_witness_packet : downlink_packet :=
  { meta_type := 7, payload_type := 1, hop_count := 0, dwlink_id := 0x045,
    data_rate := 9, frequency := 868100000, tx_power := 14, delay := 1,
    count_us := 123456789, phy_payload := [9, 8], payload_len := 2 }

def event_witness_packet : event_packet :=
  { meta_type := 7, payload_type := 3, hop_count := 0, event_id := 0xBEEF,
    event_type := 1, event_payload := [], payload_len := 0 }

/-- The downlink validity conditions exactly as claim C1 lists them, plus the
C-type storage ranges: tx_power and delay are only constrained to fit their
uint8_t fields, not to 4 bits. -/
@[reducible] def claim_valid_downlink (p : downlink_packet) : Prop :=
  p.meta_type = LORAWAN_TYPE ∧ p.payload_type = DOWNLINK_TYPE ∧ p.hop_count < 8 ∧
  p.dwlink_id < 4096 ∧ p.data_rate < 16 ∧ p.frequency < 2 ^ 32 ∧
  p.tx_power < 256 ∧ p.delay < 256 ∧ p.count_us < 2 ^ 32 ∧
  p.payload_len ≤ MAX_PHY_PAYLOAD_LEN ∧ p.payload_len = p.phy_payload.length

def cex_downlink_packet : downlink_packet :=
  { meta_type := 7, payload_type := 1, hop_count := 0, dwlink_id := 1,
    data_rate := 5, frequency := 868100000, tx_power := 16, delay := 0,
    count_us := 0, phy_payload := [], payload_len := 0 }

/- ================= basic_hal.h constants ================= -/

def LGW_HAL_SUCCESS : Int := 0

def LGW_HAL_ERROR : Int := -1

def MOD_UNDEFINED : Nat := 0

def MOD_LORA : Nat := 0x10

def BW_UNDEFINED : Nat := 0

def BW_500KHZ : Nat := 0x06

def BW_250KHZ : Nat := 0x05

def BW_125KHZ : Nat := 0x04

def BW_800KHZ : Nat := 0x0F

def BW_400KHZ : Nat := 0x0E

def BW_200KHZ : Nat := 0x0D

def DR_UNDEFINED : Nat := 0

def DR_LORA_SF5 : Nat := 5

def DR_LORA_SF6 : Nat := 6

def DR_LORA_SF7 : Nat := 7

def DR_LORA_SF8 : Nat := 8

def DR_LORA_SF9 : Nat := 9

def DR_LORA_SF10 : Nat := 10

def DR_LORA_SF11 : Nat := 11

def DR_LORA_SF12 : Nat := 12

def CR_UNDEFINED : Nat := 0

def CR_LORA_4_5 : Nat := 0x01

def CR_LORA_4_6 : Nat := 0x02

def CR_LORA_4_7 : Nat := 0x03

def CR_LORA_4_8 : Nat := 0x04

def STAT_UNDEFINED : Nat := 0x00

def STAT_NO_CRC : Nat := 0x01

def STAT_CRC_BAD : Nat := 0x11

def STAT_CRC_OK : Nat := 0x10

/-- IS_LORA_BW macro from basic_hal.h. -/
def IS_LORA_BW (bw : Nat) : Bool :=
  (bw == BW_125KHZ) || (bw == BW_250KHZ) || (bw == BW_500KHZ) ||
  (bw == BW_400KHZ) || (bw == BW_800KHZ)

/-- IS_LORA_DR macro from basic_hal.h. -/
def IS_LORA_DR (dr : Nat) : Bool :=
  (dr == DR_LORA_SF5) || (dr == DR_LORA_SF6) || (dr == DR_LORA_SF7) ||
  (dr == DR_LORA_SF8) || (dr == DR_LORA_SF9) || (dr == DR_LORA_SF10) ||
  (dr == DR_LORA_SF11) || (dr == DR_LORA_SF12)

/-- IS_LORA_CR macro from basic_hal.h. -/
def IS_LORA_CR (cr : Nat) : Bool :=
  (cr == CR_LORA_4_5) || (cr == CR_LORA_4_6) || (cr == CR_LORA_4_7) ||
  (cr == CR_LORA_4_8)

/- ================= lorahub_hal.c state and configuration ================= -/

/-- struct sx126x_conf_rxrf_s.  rssi_offset is a float only carried by
memcpy in the functions modeled here; it is represented by its value. -/
structure sx126x_conf_rxrf_s where
  freq_hz : Nat
  rssi_offset : Int
  tx_enable : Bool
deriving DecidableEq, Repr

/-- struct sx126x_conf_rxif_s; datarate[2] becomes two fields. -/
structure sx126x_conf_rxif_s where
  modulation : Nat
  bandwidth : Nat
  datarate0 : Nat
  datarate1 : Nat
  coderate : Nat
deriving DecidableEq, Repr

/-- The static module state of lorahub_hal.c: is_started, rx_status,
tx_status, rxrf_conf, rxif_conf. -/
structure sx126x_hal_state where
  is_started : Bool
  rx_status : Nat
  tx_status : Nat
  rxrf_conf : sx126x_conf_rxrf_s
  rxif_conf : sx126x_conf_rxif_s
deriving DecidableEq, Repr

/-- sx126x_rxrf_setconf: NULL or started concentrator is an error and leaves
the state alone; otherwise the whole conf is copied. -/
def sx126x_rxrf_setconf (st : sx126x_hal_state)
    (conf : Option sx126x_conf_rxrf_s) : Int × sx126x_hal_state :=
  match conf with
  | none => (LGW_HAL_ERROR, st)
  | some c =>
    if st.is_started then (LGW_HAL_ERROR, st)
    else (LGW_HAL_SUCCESS, { st with rxrf_conf := c })

/-- sx126x_rxif_setconf, with the datarate, bandwidth and coderate checks in
source order. -/
def sx126x_rxif_setconf (st : sx126x_hal_state)
    (conf : Option sx126x_conf_rxif_s) : Int × sx126x_hal_state :=
  match conf with
  | none => (LGW_HAL_ERROR, st)
  | some c =>
    if st.is_started then (LGW_HAL_ERROR, st)
    else if IS_LORA_DR c.datarate0 = false then (LGW_HAL_ERROR, st)
    else if c.datarate1 ≠ DR_UNDEFINED ∧ IS_LORA_DR c.datarate1 = false then
      (LGW_HAL_ERROR, st)
    else if IS_LORA_BW c.bandwidth = false then (LGW_HAL_ERROR, st)
    else if IS_LORA_CR c.coderate = false then (LGW_HAL_ERROR, st)
    else (LGW_HAL_SUCCESS, { st with rxif_conf := c })

/- ================= sx126x_send wait loop (C6) ================= -/

def SX126X_RTC_FREQ_IN_HZ : Nat := 64000

/-- TCXO_STARTUP_TIME_US macro: tick * 1000000 / freq in uint32_t
arithmetic. -/
def TCXO_STARTUP_TIME_US (tick freq : Nat) : Nat :=
  tick * 1000000 % 2 ^ 32 / freq

/-- The condition of sx126x_send's wait loop:
(int32_t)(pkt_data->count_us - count_us_now) > (int32_t)tcxo_startup_time_us. -/
def sx126x_send_waiting (target_count_us count_us_now tcxo_startup_time_us : Nat) :
    Bool :=
  decide (toInt32 (u32Sub target_count_us count_us_now) >
    toInt32 tcxo_startup_time_us)

/-- The signed 32-bit difference of the spec: the centered representative of
target - now modulo 2^32. -/
def sdiff32 (target now : Nat) : Int :=
  (((target : Int) - (now : Int) + 2 ^ 31) % 2 ^ 32) - 2 ^ 31

/- ================= lorahub_hal_rx.c receive path (C10) ================= -/

/-- struct lgw_pkt_rx_s from basic_hal.h.  The float fields carry exact
small-integer dB values in this HAL and are represented by those values;
payload[256] with size becomes the list of received bytes. -/
structure lgw_pkt_rx_s where
  freq_hz : Nat
  freq_offset : Int
  if_chain : Nat
  status : Nat
  count_us : Nat
  rf_chain : Nat
  modem_id : Nat
  modulation : Nat
  bandwidth : Nat
  datarate : Nat
  coderate : Nat
  rssic : Int
  rssis : Int
  snr : Int
  snr_min : Int
  snr_max : Int
  crc : Nat
  size : Nat
  payload : List Nat
  ftime_received : Bool
  ftime : Nat
deriving DecidableEq, Repr

/-- The static state of lorahub_hal_rx.c used by the receive path. -/
structure rx_driver_state where
  irq_fired : Bool
  irq_count_us : Nat
  flag_rx_done : Bool
  flag_rx_crc_error : Bool
  flag_rx_timeout : Bool
  main_detector_sf : Nat
deriving DecidableEq, Repr

/-- Hardware-provided values observed during one receive call: the IRQ status
register bits and the packet status and payload the radio reports. -/
structure radio_env where
  irq_rx_done : Bool
  irq_rx_crc_error : Bool
  irq_rx_timeout : Bool
  rssi_pkt_in_dbm : Int
  snr_pkt_in_db : Int
  pkt_size : Nat
  pkt_payload : List Nat
deriving DecidableEq, Repr

/-- radio_irq_process: when an IRQ fired, latch the RX_DONE / CRC_ERROR /
TIMEOUT bits into the flags and clear irq_fired. -/
def radio_irq_process (env : radio_env) (drv : rx_driver_state) :
    rx_driver_state :=
  if drv.irq_fired then
    { drv with
      irq_fired := false,
      flag_rx_done := drv.flag_rx_done || env.irq_rx_done,
      flag_rx_crc_error := drv.flag_rx_crc_error || env.irq_rx_crc_error,
      flag_rx_timeout := drv.flag_rx_timeout || env.irq_rx_timeout }
  else drv

/-- Return values of sx126x_radio_get_pkt (out parameters plus the updated
driver state). -/
structure get_pkt_result where
  nb_pkt_received : Nat
  irq_received : Bool
  count_us : Nat
  sf : Nat
  rssi : Int
  snr : Int
  status : Nat
  size : Nat
  payload : List Nat
  drv : rx_driver_state
deriving DecidableEq, Repr

/-- sx126x_radio_get_pkt.  The int16 packet status values are narrowed to the
int8 out parameters (int8Wrap); rssi_offset is the local 0 of the source. -/
def sx126x_radio_get_pkt (env : radio_env) (drv0 : rx_driver_state) :
    get_pkt_result :=
  let rssi_offset : Int := 0
  let drv := radio_irq_process env drv0
  if drv.flag_rx_done || drv.flag_rx_crc_error then
    if drv.flag_rx_crc_error then
      { nb_pkt_received := 1, irq_received := true,
        count_us := drv.irq_count_us, sf := drv0.main_detector_sf,
        rssi := int8Wrap (env.rssi_pkt_in_dbm + rssi_offset),
        snr := int8Wrap env.snr_pkt_in_db, status := STAT_CRC_BAD, size := 0,
        payload := [],
        drv := { drv with flag_rx_done := false, flag_rx_crc_error := false } }
    else
      { nb_pkt_received := 1, irq_received := true,
        count_us := drv.irq_count_us, sf := drv0.main_detector_sf,
        rssi := int8Wrap (env.rssi_pkt_in_dbm + rssi_offset),
        snr := int8Wrap env.snr_pkt_in_db, status := STAT_CRC_OK,
        size := env.pkt_size, payload := env.pkt_payload,
        drv := { drv with flag_rx_done := false, flag_rx_crc_error := false } }
  else if drv.flag_rx_timeout then
    { nb_pkt_received := 0, irq_received := true, count_us := 0,
      sf := drv0.main_detector_sf, rssi := 0, snr := 0,
      status := STAT_UNDEFINED, size := 0, payload := [],
      drv := { drv with flag_rx_timeout := false } }
  else
    { nb_pkt_received := 0, irq_received := false, count_us := 0,
      sf := drv0.main_detector_sf, rssi := 0, snr := 0,
      status := STAT_UNDEFINED, size := 0, payload := [], drv := drv }

/-- sx126x_get_lora_bw_in_hz (lorahub_aux). -/
def sx126x_get_lora_bw_in_hz (bw : Nat) : Nat :=
  if bw = BW_125KHZ then 125000
  else if bw = BW_250KHZ then 250000
  else if bw = BW_500KHZ then 500000
  else if bw = BW_200KHZ then 203000
  else if bw = BW_400KHZ then 406000
  else if bw = BW_800KHZ then 812000
  else 0

/-- sx126x_radio_timestamp_correction: one LoRa symbol duration in
microseconds ((1 << sf) * 1000000 / bw_in_hz, in 32-bit arithmetic). -/
def sx126x_radio_timestamp_correction (sf bw : Nat) : Nat :=
  let bw_in_hz := sx126x_get_lora_bw_in_hz bw
  if bw_in_hz ≠ 0 then (1 <<< sf) * 1000000 % 2 ^ 32 / bw_in_hz else 0

/-- sx126x_receive: reports the one packet sx126x_radio_get_pkt may deliver
(max_pkt is ignored by the source), or LGW_HAL_ERROR when not started.  The
returned triple is (return value, the packet written to pkt_data[0] if any,
updated driver state). -/
def sx126x_receive (st : sx126x_hal_state) (drv : rx_driver_state)
    (env : radio_env) (max_pkt : Nat) :
    Int × Option lgw_pkt_rx_s × rx_driver_state :=
  if st.is_started = false then (LGW_HAL_ERROR, none, drv)
  else
    let r := sx126x_radio_get_pkt env drv
    if r.nb_pkt_received > 0 then
      let count_us_correction :=
        sx126x_radio_timestamp_correction r.sf st.rxif_conf.bandwidth
      ((r.nb_pkt_received : Int),
       some { freq_hz := st.rxrf_conf.freq_hz, freq_offset := 0, if_chain := 0,
              status := r.status,
              count_us := u32Sub r.count_us count_us_correction,
              rf_chain := 0, modem_id := 0,
              modulation := st.rxif_conf.modulation,
              bandwidth := st.rxif_conf.bandwidth, datarate := r.sf,
              coderate := st.rxif_conf.coderate, rssic := r.rssi, rssis := 0,
              snr := r.snr, snr_min := 0, snr_max := 0, crc := 0,
              size := r.size, payload := r.payload, ftime_received := false,
              ftime := 0 },
       r.drv)
    else ((r.nb_pkt_received : Int), none, r.drv)

/- ================= gwcfg.h reception batches and stamps ================= -/

/-- NB_PKT_MAX from gwcfg.h: 16 under SX1301MOD, 32 otherwise. -/
def NB_PKT_MAX (sx1301mod : Bool) : Nat := if sx1301mod then 16 else 32

/-- struct _rxpkts from gwcfg.h: arrival stamp, the uint8_t stamps bitmap,
packet count and the rxpkt[NB_PKT_MAX] array (list of stored packets, whose
length is bounded by the array size). -/
structure rxpkts_s (sx1301mod : Bool) where
  entry_us : Nat
  stamps : Nat
  nb_pkt : Nat
  rxpkt : List lgw_pkt_rx_s
  stamps_lt : stamps < 256
  rxpkt_le : rxpkt.length ≤ NB_PKT_MAX sx1301mod

/-- Modelled from the spec: the coordinator assigns each registered service a
unique stamp bit, the i-th registered service getting bit i (the assignment
code of the coordinator is not under src/; only the serv_s.info.stamp
declaration in gwcfg.h is). -/
def assign_stamp (i : Nat) : Nat := i

/-- Modelled from the spec: a service marks a batch as consumed by setting
its assigned bit in the batch's stamps field; the field is the 8-bit
uint8_t stamps of rxpkts_s in gwcfg.h, so the store truncates mod 256 (the
setting code is not under src/). -/
def set_stamp_bit (stamp stamps : Nat) : Nat := (stamps ||| (1 <<< stamp)) % 256

/-- Modelled from the spec: RX ingest constructs a reception batch with the
stamp bitmap initially zero (the construction code is not under src/;
rxpkts_s itself is from gwcfg.h). -/
def new_rxpkts (sx1301mod : Bool) (entry_us : Nat) (pkts : List lgw_pkt_rx_s)
    (h : pkts.length ≤ NB_PKT_MAX sx1301mod) : rxpkts_s sx1301mod :=
  { entry_us := entry_us, stamps := 0, nb_pkt := pkts.length, rxpkt := pkts,
    stamps_lt := by omega, rxpkt_le := h }

/- ===================== theorems ===================== -/

/- ================= bit-arithmetic toolkit ================= -/

theorem and3_eq_mod (x : Nat) : x &&& 3 = x % 4 := by
  have h := Nat.and_pow_two_sub_one_eq_mod x 2
  norm_num at h
  exact h

theorem and7_eq_mod (x : Nat) : x &&& 7 = x % 8 := by
  have h := Nat.and_pow_two_sub_one_eq_mod x 3
  norm_num at h
  exact h

theorem and15_eq_mod (x : Nat) : x &&& 15 = x % 16 := by
  have h := Nat.and_pow_two_sub_one_eq_mod x 4
  norm_num at h
  exact h

theorem and255_eq_mod (x : Nat) : x &&& 255 = x % 256 := by
  have h := Nat.and_pow_two_sub_one_eq_mod x 8
  norm_num at h
  exact h

theorem or_eq_add_of_dvd_lt (k a b : Nat) (ha : 2 ^ k ∣ a) (hb : b < 2 ^ k) :
    a ||| b = a + b := by
  obtain ⟨c, rfl⟩ := ha
  exact (Nat.mul_add_lt_is_or hb c).symm

theorem shl_eq (a k : Nat) : a <<< k = a * 2 ^ k := Nat.shiftLeft_eq a k

theorem shr_eq (a k : Nat) : a >>> k = a / 2 ^ k := Nat.shiftRight_eq_div_pow a k

/-- The four-byte recombination pattern of the unpack functions, as addition. -/
theorem recombine4 (b0 b1 b2 b3 : Nat) (h1 : b1 < 256) (h2 : b2 < 256)
    (h3 : b3 < 256) :
    (((b0 <<< 24) ||| (b1 <<< 16)) ||| (b2 <<< 8)) ||| b3 =
      b0 * 2 ^ 24 + b1 * 2 ^ 16 + b2 * 2 ^ 8 + b3 := by
  rw [shl_eq, shl_eq, shl_eq]
  rw [or_eq_add_of_dvd_lt 24 (b0 * 2 ^ 24) (b1 * 2 ^ 16) ⟨b0, by ring⟩ (by omega)]
  rw [or_eq_add_of_dvd_lt 16 _ (b2 * 2 ^ 8) ⟨b0 * 2 ^ 8 + b1, by ring⟩ (by omega)]
  rw [or_eq_add_of_dvd_lt 8 _ b3 ⟨b0 * 2 ^ 16 + b1 * 2 ^ 8 + b2, by ring⟩ (by omega)]

/-- build_mhdr written arithmetically. -/
theorem build_mhdr_eq (m pt h : Nat) :
    build_mhdr m pt h = (m % 8) * 32 + (pt % 4) * 8 + h % 8 := by
  unfold build_mhdr
  rw [and7_eq_mod, and3_eq_mod, and7_eq_mod, shl_eq, shl_eq]
  rw [or_eq_add_of_dvd_lt 5 (m % 8 * 2 ^ 5) (pt % 4 * 2 ^ 3) ⟨m % 8, by ring⟩
    (by omega)]
  rw [or_eq_add_of_dvd_lt 3 _ (h % 8) ⟨m % 8 * 2 ^ 2 + pt % 4, by ring⟩ (by omega)]
  omega

theorem parse_mhdr_meta (m pt h : Nat) (hm : m < 8) :
    (build_mhdr m pt h >>> 5) &&& 0x07 = m := by
  rw [build_mhdr_eq, shr_eq, and7_eq_mod]
  omega

theorem parse_mhdr_pt (m pt h : Nat) (hpt : pt < 4) :
    (build_mhdr m pt h >>> 3) &&& 0x03 = pt := by
  rw [build_mhdr_eq, shr_eq, and3_eq_mod]
  omega

theorem parse_mhdr_hop (m pt h : Nat) (hh : h < 8) :
    build_mhdr m pt h &&& 0x07 = h := by
  rw [build_mhdr_eq, and7_eq_mod]
  omega

/-- The 12-bit id / 4-bit data-rate byte pair round-trips. -/
theorem id_dr_roundtrip (id dr : Nat) (hid : id < 4096) (hdr : dr < 16) :
    ((((id >>> 4) &&& 0xFF) <<< 4) |||
       (((((id &&& 0x0F) <<< 4) ||| (dr &&& 0x0F)) >>> 4) &&& 0x0F)) = id ∧
    ((((id &&& 0x0F) <<< 4) ||| (dr &&& 0x0F)) &&& 0x0F) = dr := by
  rw [and15_eq_mod id, and15_eq_mod dr, shl_eq, and255_eq_mod, shr_eq, shr_eq,
    shl_eq]
  rw [or_eq_add_of_dvd_lt 4 (id % 16 * 2 ^ 4) (dr % 16) ⟨id % 16, by ring⟩
    (by omega)]
  rw [and15_eq_mod, and15_eq_mod]
  constructor
  · rw [or_eq_add_of_dvd_lt 4 (id / 2 ^ 4 % 256 * 2 ^ 4) _ ⟨id / 2 ^ 4 % 256, by ring⟩
      (by omega)]
    omega
  · omega

theorem int8_roundtrip (x : Int) (h1 : -128 ≤ x) (h2 : x ≤ 127) :
    toInt8 (int8ToByte x) = x := by
  unfold toInt8 int8ToByte
  split
  · omega
  · omega

theorem int8ToByte_lt (x : Int) : int8ToByte x < 256 := by
  unfold int8ToByte
  omega

theorem toInt8_bounds (b : Nat) : -128 ≤ toInt8 b ∧ toInt8 b ≤ 127 := by
  unfold toInt8
  split
  · omega
  · omega

/-- Extracting the four big-endian bytes of a 32-bit value and recombining
them gives the value back. -/
theorem be32_bytes_roundtrip (v : Nat) (hv : v < 2 ^ 32) :
    (((((v >>> 24) &&& 0xFF) <<< 24) ||| (((v >>> 16) &&& 0xFF) <<< 16)) |||
        (((v >>> 8) &&& 0xFF) <<< 8)) ||| (v &&& 0xFF) = v := by
  rw [recombine4 _ _ _ _ (by rw [and255_eq_mod]; omega) (by rw [and255_eq_mod]; omega)
    (by rw [and255_eq_mod]; omega)]
  rw [and255_eq_mod, and255_eq_mod, and255_eq_mod, and255_eq_mod, shr_eq, shr_eq,
    shr_eq]
  omega

/-- Masking with a shifted mask selects the shifted bits. -/
theorem and_shiftLeft_mask (x m k : Nat) :
    x &&& (m <<< k) = ((x >>> k) &&& m) <<< k := by
  apply Nat.eq_of_testBit_eq
  intro i
  rw [Nat.testBit_and, Nat.testBit_shiftLeft, Nat.testBit_shiftLeft,
    Nat.testBit_and, Nat.testBit_shiftRight]
  by_cases h : k ≤ i
  · have hk : k + (i - k) = i := by omega
    simp [h, hk]
  · simp [h]

theorem and_ff00_eq (x : Nat) : x &&& 0xFF00 = x / 2 ^ 8 % 256 * 2 ^ 8 := by
  have h : (0xFF00 : Nat) = 255 <<< 8 := by decide
  rw [h, and_shiftLeft_mask, and255_eq_mod, shr_eq, shl_eq]

theorem and_ff0000_eq (x : Nat) : x &&& 0xFF0000 = x / 2 ^ 16 % 256 * 2 ^ 16 := by
  have h : (0xFF0000 : Nat) = 255 <<< 16 := by decide
  rw [h, and_shiftLeft_mask, and255_eq_mod, shr_eq, shl_eq]

theorem and_ff000000_eq (x : Nat) :
    x &&& 0xFF000000 = x / 2 ^ 24 % 256 * 2 ^ 24 := by
  have h : (0xFF000000 : Nat) = 255 <<< 24 := by decide
  rw [h, and_shiftLeft_mask, and255_eq_mod, shr_eq, shl_eq]

/-- bswap32 written arithmetically (for values below 2^32). -/
theorem bswap32_eq (v : Nat) (hv : v < 2 ^ 32) :
    bswap32 v = v % 256 * 2 ^ 24 + v / 2 ^ 8 % 256 * 2 ^ 16 +
      v / 2 ^ 16 % 256 * 2 ^ 8 + v / 2 ^ 24 := by
  unfold bswap32
  rw [and255_eq_mod, and_ff00_eq, and_ff0000_eq, and_ff000000_eq, shl_eq, shl_eq,
    shr_eq, shr_eq]
  have t2 : v / 2 ^ 8 % 256 * 2 ^ 8 * 2 ^ 8 = v / 2 ^ 8 % 256 * 2 ^ 16 := by ring
  have t3 : v / 2 ^ 16 % 256 * 2 ^ 16 / 2 ^ 8 = v / 2 ^ 16 % 256 * 2 ^ 8 := by
    omega
  have t4 : v / 2 ^ 24 % 256 * 2 ^ 24 / 2 ^ 24 = v / 2 ^ 24 % 256 := by
    omega
  rw [t2, t3, t4]
  rw [or_eq_add_of_dvd_lt 24 (v % 256 * 2 ^ 24) (v / 2 ^ 8 % 256 * 2 ^ 16)
    ⟨v % 256, by ring⟩ (by omega)]
  rw [or_eq_add_of_dvd_lt 16 _ (v / 2 ^ 16 % 256 * 2 ^ 8)
    ⟨v % 256 * 2 ^ 8 + v / 2 ^ 8 % 256, by ring⟩ (by omega)]
  rw [or_eq_add_of_dvd_lt 8 _ (v / 2 ^ 24 % 256)
    ⟨v % 256 * 2 ^ 16 + v / 2 ^ 8 % 256 * 2 ^ 8 + v / 2 ^ 16 % 256, by ring⟩
    (by omega)]
  omega

theorem bswap32_lt (v : Nat) (hv : v < 2 ^ 32) : bswap32 v < 2 ^ 32 := by
  rw [bswap32_eq v hv]
  omega

theorem bswap32_involutive (v : Nat) (hv : v < 2 ^ 32) :
    bswap32 (bswap32 v) = v := by
  obtain ⟨a, b, c, d, ha, hb, hc, hd, rfl⟩ :
      ∃ a b c d, a < 256 ∧ b < 256 ∧ c < 256 ∧ d < 256 ∧
        v = a * 2 ^ 24 + b * 2 ^ 16 + c * 2 ^ 8 + d := by
    exact ⟨v / 2 ^ 24, v / 2 ^ 16 % 256, v / 2 ^ 8 % 256, v % 256,
      by omega, by omega, by omega, by omega, by omega⟩
  rw [bswap32_eq (a * 2 ^ 24 + b * 2 ^ 16 + c * 2 ^ 8 + d) hv]
  have d1 : (a * 2 ^ 24 + b * 2 ^ 16 + c * 2 ^ 8 + d) / 2 ^ 8 =
      a * 2 ^ 16 + b * 2 ^ 8 + c := by omega
  have d2 : (a * 2 ^ 24 + b * 2 ^ 16 + c * 2 ^ 8 + d) / 2 ^ 16 =
      a * 2 ^ 8 + b := by omega
  have d3 : (a * 2 ^ 24 + b * 2 ^ 16 + c * 2 ^ 8 + d) / 2 ^ 24 = a := by omega
  rw [d1, d2, d3]
  have e : (a * 2 ^ 24 + b * 2 ^ 16 + c * 2 ^ 8 + d) % 256 * 2 ^ 24 +
      (a * 2 ^ 16 + b * 2 ^ 8 + c) % 256 * 2 ^ 16 +
      (a * 2 ^ 8 + b) % 256 * 2 ^ 8 + a =
      d * 2 ^ 24 + c * 2 ^ 16 + b * 2 ^ 8 + a := by omega
  rw [e, bswap32_eq (d * 2 ^ 24 + c * 2 ^ 16 + b * 2 ^ 8 + a) (by omega)]
  have f1 : (d * 2 ^ 24 + c * 2 ^ 16 + b * 2 ^ 8 + a) / 2 ^ 8 =
      d * 2 ^ 16 + c * 2 ^ 8 + b := by omega
  have f2 : (d * 2 ^ 24 + c * 2 ^ 16 + b * 2 ^ 8 + a) / 2 ^ 16 =
      d * 2 ^ 8 + c := by omega
  have f3 : (d * 2 ^ 24 + c * 2 ^ 16 + b * 2 ^ 8 + a) / 2 ^ 24 = d := by omega
  rw [f1, f2, f3]
  have m1 : (d * 2 ^ 24 + c * 2 ^ 16 + b * 2 ^ 8 + a) % 256 = a := by omega
  have m2 : (d * 2 ^ 16 + c * 2 ^ 8 + b) % 256 = b := by omega
  have m3 : (d * 2 ^ 8 + c) % 256 = c := by omega
  rw [m1, m2, m3]

theorem host_to_be32_lt (big : Bool) (v : Nat) (hv : v < 2 ^ 32) :
    host_to_be32 big v < 2 ^ 32 := by
  cases big
  · simpa [host_to_be32, be_to_host32] using bswap32_lt v hv
  · simpa [host_to_be32, be_to_host32] using hv

theorem be_to_host_of_host_to_be (big : Bool) (v : Nat) (hv : v < 2 ^ 32) :
    be_to_host32 big (host_to_be32 big v) = v := by
  cases big <;> simp [host_to_be32, be_to_host32, bswap32_involutive v hv]

theorem uplink_roundtrip (p : uplink_packet) (h : wf_uplink p) :
    ∃ r, pack_uplink_packet p = some r ∧ unpack_uplink_packet r.1 = some p := by
  obtain ⟨m, pt, hc, id, dr, rs, sn, ch, pl, plen⟩ := p
  obtain ⟨hm, hpt, hhop, hid, hdr, hr1, hr2, hs1, hs2, hch, hlen, hleq⟩ := h
  dsimp only at *
  simp only [UPLINK_TYPE, LORAWAN_TYPE, MAX_PHY_PAYLOAD_LEN] at hm hpt hlen
  subst hm
  subst hpt
  subst hleq
  unfold pack_uplink_packet
  rw [if_neg (by simp [MAX_PHY_PAYLOAD_LEN]; omega),
    if_neg (by simp [UPLINK_TYPE]),
    if_neg (by simp [LORAWAN_TYPE])]
  refine ⟨_, rfl, ?_⟩
  simp only [List.cons_append, List.nil_append, List.take_length]
  unfold unpack_uplink_packet
  dsimp only
  rw [parse_mhdr_pt 7 0 hc (by omega), parse_mhdr_meta 7 0 hc (by omega),
    parse_mhdr_hop 7 0 hc hhop]
  rw [(id_dr_roundtrip id dr hid hdr).1, (id_dr_roundtrip id dr hid hdr).2]
  rw [int8_roundtrip rs hr1 hr2,
    int8_roundtrip sn (by omega) (by omega)]
  rw [if_neg (by simp [UPLINK_TYPE]), if_neg (by simp [LORAWAN_TYPE]),
    if_neg (by omega), if_neg (by simp [MAX_PHY_PAYLOAD_LEN]; omega)]

theorem nibble_roundtrip (a b : Nat) (ha : a < 16) (hb : b < 16) :
    ((((a &&& 0x0F) <<< 4) ||| (b &&& 0x0F)) >>> 4) &&& 0x0F = a ∧
    (((a &&& 0x0F) <<< 4) ||| (b &&& 0x0F)) &&& 0x0F = b := by
  rw [and15_eq_mod a, and15_eq_mod b, shl_eq]
  rw [or_eq_add_of_dvd_lt 4 (a % 16 * 2 ^ 4) (b % 16) ⟨a % 16, by ring⟩ (by omega)]
  rw [shr_eq, and15_eq_mod, and15_eq_mod]
  constructor
  · omega
  · omega

theorem u16_bytes_roundtrip (id : Nat) (h : id < 65536) :
    (((id >>> 8) &&& 0xFF) <<< 8) ||| (id &&& 0xFF) = id := by
  rw [and255_eq_mod, and255_eq_mod, shr_eq, shl_eq]
  rw [or_eq_add_of_dvd_lt 8 (id / 2 ^ 8 % 256 * 2 ^ 8) (id % 256)
    ⟨id / 2 ^ 8 % 256, by ring⟩ (by omega)]
  omega

theorem downlink_roundtrip (big : Bool) (p : downlink_packet)
    (h : wf_downlink p) :
    ∃ r, pack_downlink_packet big p = some r ∧
      unpack_downlink_packet big r.1 = some p := by
  obtain ⟨m, pt, hc, id, dr, fr, tp, dl, cu, pl, plen⟩ := p
  obtain ⟨hm, hpt, hhop, hid, hdr, hfr, htp, hdl, hcu, hlen, hleq⟩ := h
  dsimp only at *
  simp only [DOWNLINK_TYPE, LORAWAN_TYPE, MAX_PHY_PAYLOAD_LEN] at hm hpt hlen
  subst hm
  subst hpt
  subst hleq
  unfold pack_downlink_packet
  rw [if_neg (by simp [MAX_PHY_PAYLOAD_LEN]; omega),
    if_neg (by simp [DOWNLINK_TYPE]),
    if_neg (by simp [LORAWAN_TYPE])]
  refine ⟨_, rfl, ?_⟩
  simp only [List.cons_append, List.nil_append, List.take_length]
  unfold unpack_downlink_packet
  dsimp only
  rw [parse_mhdr_pt 7 1 hc (by omega), parse_mhdr_meta 7 1 hc (by omega),
    parse_mhdr_hop 7 1 hc hhop]
  rw [(id_dr_roundtrip id dr hid hdr).1, (id_dr_roundtrip id dr hid hdr).2]
  rw [be32_bytes_roundtrip (host_to_be32 big fr) (host_to_be32_lt big fr hfr),
    be_to_host_of_host_to_be big fr hfr]
  rw [(nibble_roundtrip tp dl htp hdl).1, (nibble_roundtrip tp dl htp hdl).2]
  rw [be32_bytes_roundtrip (host_to_be32 big cu) (host_to_be32_lt big cu hcu),
    be_to_host_of_host_to_be big cu hcu]
  rw [if_neg (by simp [DOWNLINK_TYPE]), if_neg (by simp [LORAWAN_TYPE]),
    if_neg (by simp [MAX_PHY_PAYLOAD_LEN]; omega)]

theorem event_roundtrip (p : event_packet) (h : wf_event p) :
    ∃ r, pack_event_packet p = some r ∧ unpack_event_packet r.1 = some p := by
  obtain ⟨m, pt, hc, eid, et, pl, plen⟩ := p
  obtain ⟨hm, hpt, hhop, heid, het, hlen, hleq⟩ := h
  dsimp only at *
  simp only [EVENT_TYPE, LORAWAN_TYPE, MAX_EVENT_PAYLOAD_LEN] at hm hpt hlen
  subst hm
  subst hpt
  subst hleq
  unfold pack_event_packet
  rw [if_neg (by simp [MAX_EVENT_PAYLOAD_LEN]; omega),
    if_neg (by simp [EVENT_TYPE]),
    if_neg (by simp [LORAWAN_TYPE])]
  refine ⟨_, rfl, ?_⟩
  simp only [List.cons_append, List.nil_append, List.take_length]
  unfold unpack_event_packet
  dsimp only
  rw [parse_mhdr_pt 7 3 hc (by omega), parse_mhdr_meta 7 3 hc (by omega),
    parse_mhdr_hop 7 3 hc hhop]
  rw [u16_bytes_roundtrip eid heid, Nat.mod_eq_of_lt het]
  rw [if_neg (by simp [EVENT_TYPE]), if_neg (by simp [LORAWAN_TYPE]),
    if_neg (by simp [MAX_EVENT_PAYLOAD_LEN]; omega)]

/- ================= claim C1 ================= -/

/-- C1 (amended): for every valid relay packet -- meta_type 0b111, matching
payload_type, hop_count < 8, 12-bit id, 4-bit data_rate, uplink snr in
-32..31, payload within the per-type cap, and additionally the downlink
4-bit fields tx_power and delay in 0..15 and the event event_type an 8-bit
value -- decoding the bytes produced by the corresponding pack function
succeeds and returns the packet unchanged, on either host endianness. -/
theorem relay_codec_roundtrip (big : Bool) (pu : uplink_packet)
    (pd : downlink_packet) (pe : event_packet)
    (hu : wf_uplink pu) (hd : wf_downlink pd) (he : wf_event pe) :
    (∃ r, pack_uplink_packet pu = some r ∧ unpack_uplink_packet r.1 = some pu) ∧
    (∃ r, pack_downlink_packet big pd = some r ∧
      unpack_downlink_packet big r.1 = some pd) ∧
    (∃ r, pack_event_packet pe = some r ∧ unpack_event_packet r.1 = some pe) :=
  ⟨uplink_roundtrip pu hu, downlink_roundtrip big pd hd, event_roundtrip pe he⟩

/-- Witness for C1 at concrete packets. -/
theorem relay_codec_roundtrip_witness :
    wf_uplink uplink_witness_packet ∧ wf_downlink downlink_witness_packet ∧
    wf_event event_witness_packet ∧
    ((∃ r, pack_uplink_packet uplink_witness_packet = some r ∧
        unpack_uplink_packet r.1 = some uplink_witness_packet) ∧
     (∃ r, pack_downlink_packet false downlink_witness_packet = some r ∧
        unpack_downlink_packet false r.1 = some downlink_witness_packet) ∧
     (∃ r, pack_event_packet event_witness_packet = some r ∧
        unpack_event_packet r.1 = some event_witness_packet)) :=
  ⟨by decide, by decide, by decide,
   relay_codec_roundtrip false uplink_witness_packet downlink_witness_packet
     event_witness_packet (by decide) (by decide) (by decide)⟩

/-- Counterexample to C1 as stated: a downlink packet meeting every condition
the claim lists (tx_power = 16 fits uint8_t) fails the decode(encode(P)) = P
round trip, because the encoder keeps only the low 4 bits of tx_power. -/
theorem relay_codec_roundtrip_cex :
    claim_valid_downlink cex_downlink_packet ∧
    (match pack_downlink_packet false cex_downlink_packet with
     | some r => unpack_downlink_packet false r.1
     | none => none) ≠ some cex_downlink_packet := by decide

/- ================= claim C2 ================= -/

/-- C2: packing the uplink packet meta=0b111, type=0b00, hop=2,
uplink_id=0xABC, dr=5, rssi=-80, snr=7, channel=3, payload=[0xDE,0xAD]
yields exactly the bytes E2 AB C5 B0 07 03 DE AD with out_len = 8. -/
theorem pack_uplink_packet_example :
    pack_uplink_packet
      { meta_type := 0x07, payload_type := 0x00, hop_count := 2,
        uplink_id := 0xABC, data_rate := 5, rssi := -80, snr := 7,
        channel := 3, phy_payload := [0xDE, 0xAD], payload_len := 2 } =
    some ([0xE2, 0xAB, 0xC5, 0xB0, 0x07, 0x03, 0xDE, 0xAD], 8) := by decide

/- ================= claim C3 ================= -/

/-- C3: on any buffer of length at least 6 whose MHDR passes the uplink
discriminator checks, unpack_uplink_packet returns false whenever the SNR
byte read as int8 is below -32 or above 31. -/
theorem unpack_uplink_snr_reject (b0 b1 b2 b3 b4 b5 : Nat) (rest : List Nat)
    (hpt : (b0 >>> 3) &&& 0x03 = UPLINK_TYPE)
    (hm : (b0 >>> 5) &&& 0x07 = LORAWAN_TYPE)
    (hsnr : toInt8 b4 < -32 ∨ toInt8 b4 > 31) :
    unpack_uplink_packet (b0 :: b1 :: b2 :: b3 :: b4 :: b5 :: rest) = none := by
  unfold unpack_uplink_packet
  dsimp only
  rw [hpt, hm]
  rw [if_neg (by simp), if_neg (by simp), if_pos hsnr]

/-- Witness for C3: decoding rejects SNR = -33 (byte 0xDF) and +32 (0x20). -/
theorem unpack_uplink_snr_reject_witness :
    unpack_uplink_packet [0xE0, 0, 0, 0, 0xDF, 0] = none ∧
    unpack_uplink_packet [0xE0, 0, 0, 0, 0x20, 0] = none :=
  ⟨unpack_uplink_snr_reject 0xE0 0 0 0 0xDF 0 [] (by decide) (by decide)
     (by decide),
   unpack_uplink_snr_reject 0xE0 0 0 0 0x20 0 [] (by decide) (by decide)
     (by decide)⟩

/- ================= claim C4 ================= -/

/-- C4: with the discriminators valid, each pack function succeeds at
payload_len 0 and at the per-type maximum (245 for uplink and downlink,
240 for event) and returns NULL at maximum plus one. -/
theorem pack_payload_len_boundary (big : Bool) (pu : uplink_packet)
    (pd : downlink_packet) (pe : event_packet)
    (hum : pu.meta_type = LORAWAN_TYPE) (hup : pu.payload_type = UPLINK_TYPE)
    (hdm : pd.meta_type = LORAWAN_TYPE) (hdp : pd.payload_type = DOWNLINK_TYPE)
    (hem : pe.meta_type = LORAWAN_TYPE) (hep : pe.payload_type = EVENT_TYPE) :
    ((pu.payload_len = 0 ∨ pu.payload_len = MAX_PHY_PAYLOAD_LEN) →
       (pack_uplink_packet pu).isSome) ∧
    (pu.payload_len = MAX_PHY_PAYLOAD_LEN + 1 → pack_uplink_packet pu = none) ∧
    ((pd.payload_len = 0 ∨ pd.payload_len = MAX_PHY_PAYLOAD_LEN) →
       (pack_downlink_packet big pd).isSome) ∧
    (pd.payload_len = MAX_PHY_PAYLOAD_LEN + 1 →
       pack_downlink_packet big pd = none) ∧
    ((pe.payload_len = 0 ∨ pe.payload_len = MAX_EVENT_PAYLOAD_LEN) →
       (pack_event_packet pe).isSome) ∧
    (pe.payload_len = MAX_EVENT_PAYLOAD_LEN + 1 → pack_event_packet pe = none) := by
  refine ⟨?_, ?_, ?_, ?_, ?_, ?_⟩
  · intro h0
    unfold pack_uplink_packet
    rw [if_neg (by simp [MAX_PHY_PAYLOAD_LEN] at h0 ⊢; omega),
      if_neg (by simp [hup]), if_neg (by simp [hum])]
    rfl
  · intro h1
    unfold pack_uplink_packet
    rw [if_pos (by simp [MAX_PHY_PAYLOAD_LEN] at h1 ⊢; omega)]
  · intro h0
    unfold pack_downlink_packet
    rw [if_neg (by simp [MAX_PHY_PAYLOAD_LEN] at h0 ⊢; omega),
      if_neg (by simp [hdp]), if_neg (by simp [hdm])]
    rfl
  · intro h1
    unfold pack_downlink_packet
    rw [if_pos (by simp [MAX_PHY_PAYLOAD_LEN] at h1 ⊢; omega)]
  · intro h0
    unfold pack_event_packet
    rw [if_neg (by simp [MAX_EVENT_PAYLOAD_LEN] at h0 ⊢; omega),
      if_neg (by simp [hep]), if_neg (by simp [hem])]
    rfl
  · intro h1
    unfold pack_event_packet
    rw [if_pos (by simp [MAX_EVENT_PAYLOAD_LEN] at h1 ⊢; omega)]

/-- Witness for C4 at concrete packets: length 0 accepted, cap+1 rejected. -/
theorem pack_payload_len_boundary_witness :
    (pack_uplink_packet
      { uplink_witness_packet with phy_payload := [], payload_len := 0 }).isSome ∧
    pack_uplink_packet
      { uplink_witness_packet with payload_len := 246 } = none :=
  ⟨(pack_payload_len_boundary false
      { uplink_witness_packet with phy_payload := [], payload_len := 0 }
      downlink_witness_packet event_witness_packet (by decide) (by decide)
      (by decide) (by decide) (by decide) (by decide)).1 (Or.inl (by decide)),
   (pack_payload_len_boundary false
      { uplink_witness_packet with payload_len := 246 }
      downlink_witness_packet event_witness_packet (by decide) (by decide)
      (by decide) (by decide) (by decide) (by decide)).2.1 (by decide)⟩

/- ================= claim C5 ================= -/

/-- C5: every pack function returns NULL and every unpack function returns
false whenever the meta-type field is not 0b111 or the payload-type field is
not that kind's discriminator (0b00 uplink, 0b01 downlink, 0b11 event). -/
theorem relay_discriminator_reject :
    (∀ p : uplink_packet,
       p.meta_type ≠ LORAWAN_TYPE ∨ p.payload_type ≠ UPLINK_TYPE →
       pack_uplink_packet p = none) ∧
    (∀ (big : Bool) (p : downlink_packet),
       p.meta_type ≠ LORAWAN_TYPE ∨ p.payload_type ≠ DOWNLINK_TYPE →
       pack_downlink_packet big p = none) ∧
    (∀ p : event_packet,
       p.meta_type ≠ LORAWAN_TYPE ∨ p.payload_type ≠ EVENT_TYPE →
       pack_event_packet p = none) ∧
    (∀ (b0 : Nat) (rest : List Nat),
       (b0 >>> 5) &&& 0x07 ≠ LORAWAN_TYPE ∨ (b0 >>> 3) &&& 0x03 ≠ UPLINK_TYPE →
       unpack_uplink_packet (b0 :: rest) = none) ∧
    (∀ (big : Bool) (b0 : Nat) (rest : List Nat),
       (b0 >>> 5) &&& 0x07 ≠ LORAWAN_TYPE ∨ (b0 >>> 3) &&& 0x03 ≠ DOWNLINK_TYPE →
       unpack_downlink_packet big (b0 :: rest) = none) ∧
    (∀ (b0 : Nat) (rest : List Nat),
       (b0 >>> 5) &&& 0x07 ≠ LORAWAN_TYPE ∨ (b0 >>> 3) &&& 0x03 ≠ EVENT_TYPE →
       unpack_event_packet (b0 :: rest) = none) := by
  refine ⟨?_, ?_, ?_, ?_, ?_, ?_⟩
  · intro p h
    unfold pack_uplink_packet
    split_ifs <;> first | rfl | tauto
  · intro big p h
    unfold pack_downlink_packet
    split_ifs <;> first | rfl | tauto
  · intro p h
    unfold pack_event_packet
    split_ifs <;> first | rfl | tauto
  · intro b0 rest h
    rcases rest with _ | ⟨b1, _ | ⟨b2, _ | ⟨b3, _ | ⟨b4, _ | ⟨b5, rest⟩⟩⟩⟩⟩ <;>
      first
        | rfl
        | (unfold unpack_uplink_packet
           dsimp only
           split_ifs <;> first | rfl | tauto)
  · intro big b0 rest h
    rcases rest with _ | ⟨b1, _ | ⟨b2, _ | ⟨b3, _ | ⟨b4, _ | ⟨b5, _ | ⟨b6,
      _ | ⟨b7, _ | ⟨b8, _ | ⟨b9, _ | ⟨b10, _ | ⟨b11, rest⟩⟩⟩⟩⟩⟩⟩⟩⟩⟩⟩ <;>
      first
        | rfl
        | (unfold unpack_downlink_packet
           dsimp only
           split_ifs <;> first | rfl | tauto)
  · intro b0 rest h
    rcases rest with _ | ⟨b1, _ | ⟨b2, _ | ⟨b3, rest⟩⟩⟩ <;>
      first
        | rfl
        | (unfold unpack_event_packet
           dsimp only
           split_ifs <;> first | rfl | tauto)

/-- Witness for C5: a wrong meta-type (0b011) is rejected by the uplink
encoder and decoder. -/
theorem relay_discriminator_reject_witness :
    pack_uplink_packet { uplink_witness_packet with meta_type := 0 } = none ∧
    unpack_uplink_packet [0x62, 0, 0, 0, 0, 0] = none :=
  ⟨relay_discriminator_reject.1 { uplink_witness_packet with meta_type := 0 }
     (Or.inl (by decide)),
   relay_discriminator_reject.2.2.2.1 0x62 [0, 0, 0, 0, 0] (Or.inl (by decide))⟩

/- ================= claim C6 ================= -/

/-- C6 (amended): the wait loop of sx126x_send compares target and now in
unsigned 32-bit modular arithmetic; its condition holds exactly while the
signed 32-bit difference (int32_t)(target - now) exceeds the TCXO startup
time, and a job with target 0x00000100 at now 0xFFFFFF00 has signed
difference +512, i.e. is treated as 512 microseconds in the future. -/
theorem sx126x_send_wait_future :
    (∀ target now : Nat, target < 2 ^ 32 → now < 2 ^ 32 →
       toInt32 (u32Sub target now) = sdiff32 target now ∧
       (∀ tcxo : Nat, sx126x_send_waiting target now tcxo = true ↔
          sdiff32 target now > toInt32 tcxo)) ∧
    sdiff32 0x00000100 0xFFFFFF00 = 512 ∧
    (0 : Int) < sdiff32 0x00000100 0xFFFFFF00 := by
  refine ⟨?_, by decide, by decide⟩
  intro target now ht hn
  have key : toInt32 (u32Sub target now) = sdiff32 target now := by
    unfold toInt32 u32Sub sdiff32
    split
    · omega
    · omega
  refine ⟨key, fun tcxo => ?_⟩
  simp only [sx126x_send_waiting, decide_eq_true_eq]
  rw [key]

/-- Witness for C6 at the wrap-around example of the spec. -/
theorem sx126x_send_wait_future_witness :
    toInt32 (u32Sub 0x00000100 0xFFFFFF00) = sdiff32 0x00000100 0xFFFFFF00 ∧
    (sx126x_send_waiting 0x00000100 0xFFFFFF00 0 = true ↔
       sdiff32 0x00000100 0xFFFFFF00 > toInt32 0) :=
  ⟨(sx126x_send_wait_future.1 0x00000100 0xFFFFFF00 (by norm_num)
      (by norm_num)).1,
   (sx126x_send_wait_future.1 0x00000100 0xFFFFFF00 (by norm_num)
      (by norm_num)).2 0⟩

/-- Counterexample to C6 as stated: the signed 32-bit difference between
target 0x00000100 and now 0xFFFFFF00 is +512, not +256 (0xFFFFFF00 is 256
below the wrap and 0x00000100 is 256 above it), so the job is 512
microseconds in the future. -/
theorem sx126x_send_wait_future_cex :
    sdiff32 0x00000100 0xFFFFFF00 = 512 ∧
    toInt32 (u32Sub 0x00000100 0xFFFFFF00) ≠ 256 := by decide

/- ================= claim C9 ================= -/

/-- C9: sx126x_rxrf_setconf and sx126x_rxif_setconf return LGW_HAL_ERROR and
leave the stored configuration unchanged when the concentrator is started,
the argument is NULL, or (for rxif) datarate, bandwidth or coderate is
invalid; on success the stored configuration equals the argument in full. -/
theorem sx126x_setconf_validation :
    (∀ st : sx126x_hal_state, sx126x_rxrf_setconf st none = (LGW_HAL_ERROR, st)) ∧
    (∀ (st : sx126x_hal_state) (c : sx126x_conf_rxrf_s), st.is_started = true →
       sx126x_rxrf_setconf st (some c) = (LGW_HAL_ERROR, st)) ∧
    (∀ (st : sx126x_hal_state) (c : sx126x_conf_rxrf_s), st.is_started = false →
       sx126x_rxrf_setconf st (some c) =
         (LGW_HAL_SUCCESS, { st with rxrf_conf := c })) ∧
    (∀ st : sx126x_hal_state, sx126x_rxif_setconf st none = (LGW_HAL_ERROR, st)) ∧
    (∀ (st : sx126x_hal_state) (c : sx126x_conf_rxif_s),
       st.is_started = true ∨ IS_LORA_DR c.datarate0 = false ∨
       (c.datarate1 ≠ DR_UNDEFINED ∧ IS_LORA_DR c.datarate1 = false) ∨
       IS_LORA_BW c.bandwidth = false ∨ IS_LORA_CR c.coderate = false →
       sx126x_rxif_setconf st (some c) = (LGW_HAL_ERROR, st)) ∧
    (∀ (st : sx126x_hal_state) (c : sx126x_conf_rxif_s), st.is_started = false →
       IS_LORA_DR c.datarate0 = true →
       (c.datarate1 = DR_UNDEFINED ∨ IS_LORA_DR c.datarate1 = true) →
       IS_LORA_BW c.bandwidth = true → IS_LORA_CR c.coderate = true →
       sx126x_rxif_setconf st (some c) =
         (LGW_HAL_SUCCESS, { st with rxif_conf := c })) := by
  refine ⟨fun st => rfl, ?_, ?_, fun st => rfl, ?_, ?_⟩
  · intro st c h
    unfold sx126x_rxrf_setconf
    dsimp only
    rw [if_pos h]
  · intro st c h
    unfold sx126x_rxrf_setconf
    dsimp only
    rw [if_neg (by simp [h])]
  · intro st c h
    unfold sx126x_rxif_setconf
    dsimp only
    split_ifs <;> first | rfl | tauto
  · intro st c h h0 h1 hbw hcr
    unfold sx126x_rxif_setconf
    dsimp only
    split_ifs <;> simp_all

/-- Witness for C9: a concrete successful rxif configuration is stored in
full, and the same call fails with the concentrator started. -/
theorem sx126x_setconf_validation_witness :
    sx126x_rxif_setconf
      { is_started := false, rx_status := 0, tx_status := 0,
        rxrf_conf := { freq_hz := 0, rssi_offset := 0, tx_enable := false },
        rxif_conf := { modulation := 0, bandwidth := 0, datarate0 := 0,
                       datarate1 := 0, coderate := 0 } }
      (some { modulation := 0x10, bandwidth := 0x04, datarate0 := 7,
              datarate1 := 0, coderate := 1 }) =
      (LGW_HAL_SUCCESS,
       { is_started := false, rx_status := 0, tx_status := 0,
         rxrf_conf := { freq_hz := 0, rssi_offset := 0, tx_enable := false },
         rxif_conf := { modulation := 0x10, bandwidth := 0x04, datarate0 := 7,
                        datarate1 := 0, coderate := 1 } }) :=
  sx126x_setconf_validation.2.2.2.2.2
    { is_started := false, rx_status := 0, tx_status := 0,
      rxrf_conf := { freq_hz := 0, rssi_offset := 0, tx_enable := false },
      rxif_conf := { modulation := 0, bandwidth := 0, datarate0 := 0,
                     datarate1 := 0, coderate := 0 } }
    { modulation := 0x10, bandwidth := 0x04, datarate0 := 7, datarate1 := 0,
      coderate := 1 }
    (by decide) (by decide) (Or.inl (by decide)) (by decide) (by decide)

/- ================= claim C10 ================= -/

/-- C10: a single sx126x_receive call reports at most one packet whatever
max_pkt is (the argument is ignored), and returns LGW_HAL_ERROR without a
packet when the concentrator is not started. -/
theorem sx126x_receive_single_packet :
    (∀ (st : sx126x_hal_state) (drv : rx_driver_state) (env : radio_env)
       (max_pkt : Nat), st.is_started = false →
       sx126x_receive st drv env max_pkt = (LGW_HAL_ERROR, none, drv)) ∧
    (∀ (st : sx126x_hal_state) (drv : rx_driver_state) (env : radio_env)
       (m m' : Nat), sx126x_receive st drv env m = sx126x_receive st drv env m') ∧
    (∀ (env : radio_env) (drv : rx_driver_state),
       (sx126x_radio_get_pkt env drv).nb_pkt_received ≤ 1) ∧
    (∀ (st : sx126x_hal_state) (drv : rx_driver_state) (env : radio_env)
       (max_pkt : Nat), st.is_started = true →
       (sx126x_receive st drv env max_pkt).1 =
         ((sx126x_radio_get_pkt env drv).nb_pkt_received : Int) ∧
       ((sx126x_receive st drv env max_pkt).2.1 = none ↔
         (sx126x_radio_get_pkt env drv).nb_pkt_received = 0)) := by
  refine ⟨?_, ?_, ?_, ?_⟩
  · intro st drv env max_pkt h
    unfold sx126x_receive
    rw [if_pos h]
  · intro st drv env m m'
    rfl
  · intro env drv
    unfold sx126x_radio_get_pkt
    dsimp only
    split_ifs <;> simp
  · intro st drv env max_pkt h
    unfold sx126x_receive
    rw [if_neg (by simp [h])]
    dsimp only
    split_ifs with hnb
    · exact ⟨rfl, by simp; omega⟩
    · exact ⟨rfl, by simp; omega⟩

/-- Witness for C10: with the concentrator stopped, receive reports an error
and no packet, for max_pkt = 8. -/
theorem sx126x_receive_single_packet_witness :
    sx126x_receive
      { is_started := false, rx_status := 0, tx_status := 0,
        rxrf_conf := { freq_hz := 868100000, rssi_offset := 0, tx_enable := true },
        rxif_conf := { modulation := 0x10, bandwidth := 0x04, datarate0 := 7,
                       datarate1 := 0, coderate := 1 } }
      { irq_fired := false, irq_count_us := 0, flag_rx_done := false,
        flag_rx_crc_error := false, flag_rx_timeout := false,
        main_detector_sf := 7 }
      { irq_rx_done := false, irq_rx_crc_error := false, irq_rx_timeout := false,
        rssi_pkt_in_dbm := 0, snr_pkt_in_db := 0, pkt_size := 0,
        pkt_payload := [] } 8 =
      (LGW_HAL_ERROR, none,
       { irq_fired := false, irq_count_us := 0, flag_rx_done := false,
         flag_rx_crc_error := false, flag_rx_timeout := false,
         main_detector_sf := 7 }) :=
  sx126x_receive_single_packet.1 _ _ _ 8 (by decide)

/- ================= claim C7 ================= -/

set_option maxRecDepth 4096 in
/-- C7 (amended): with the 8-bit stamps bitmap of rxpkts_s, stamp bits range
over 0..7: the assignment gives distinct services distinct bits, a new batch
has a zero bitmap, and a service with stamp bit below 8 can set its bit
without touching the bits of the other services. -/
theorem service_stamp_bitmap :
    (∀ i j : Nat, assign_stamp i = assign_stamp j → i = j) ∧
    (∀ (sx : Bool) (e : Nat) (pkts : List lgw_pkt_rx_s)
       (h : pkts.length ≤ NB_PKT_MAX sx), (new_rxpkts sx e pkts h).stamps = 0) ∧
    (∀ stamp : Nat, stamp < 8 → ∀ stamps : Nat, stamps < 256 →
       Nat.testBit (set_stamp_bit stamp stamps) stamp = true ∧
       set_stamp_bit stamp stamps < 256 ∧
       (∀ b : Nat, b < 8 → b ≠ stamp →
          Nat.testBit (set_stamp_bit stamp stamps) b = Nat.testBit stamps b)) := by
  refine ⟨fun i j h => h, fun sx e pkts h => rfl, ?_⟩
  decide

/-- Witness for C7 at stamp bit 3 on the zero bitmap. -/
theorem service_stamp_bitmap_witness :
    Nat.testBit (set_stamp_bit 3 0) 3 = true :=
  (service_stamp_bitmap.2.2 3 (by decide) 0 (by decide)).1

/-- Counterexample to C7 as stated: stamp bit 8 lies inside the claimed range
0..63, but the stamps field of rxpkts_s is a uint8_t, so setting bit 8 leaves
the bitmap unchanged and the bit can never be observed set. -/
theorem service_stamp_bitmap_cex :
    8 ≤ 63 ∧ set_stamp_bit 8 0 = 0 ∧
    Nat.testBit (set_stamp_bit 8 0) 8 = false := by decide

/- ================= claim C8 ================= -/

/-- C8: a reception batch holds at most NB_PKT_MAX radio packets, and
NB_PKT_MAX is 16 when built for SX1301 and 32 otherwise. -/
theorem nb_pkt_max_batch_capacity :
    NB_PKT_MAX true = 16 ∧ NB_PKT_MAX false = 32 ∧
    ∀ (sx : Bool) (b : rxpkts_s sx), b.rxpkt.length ≤ NB_PKT_MAX sx :=
  ⟨rfl, rfl, fun sx b => b.rxpkt_le⟩
